import Mathlib

/-!
Verification of the post collection data pipeline of a personal blog site:
the frontmatter schema validator (`src/content/config.ts`), the collection
utilities (`src/lib/utils.ts`), and the blog index composition
(`src/pages/blog.astro`), modelled as a shallow embedding.
-/

/-- A JavaScript `Date` value, represented by its time value: the number of
milliseconds since the Unix epoch (an integer; JS dates are restricted to
magnitudes where this is exact). -/
structure JSDate where
  ms : Int
deriving DecidableEq, Repr

/-- Coercion `Number(d)` of a JS `Date`: its primitive time value. -/
def JSDate.toNumber (d : JSDate) : Int := d.ms

/-- Truthiness of a JS `Date` in a boolean context: every JS object is truthy,
regardless of its time value. -/
def JSDate.truthy (_ : JSDate) : Bool := true

/-- An untyped frontmatter field value, the value space the YAML frontmatter
parser can hand to the schema (strings, dates, numbers, booleans). -/
inductive FieldValue where
  | str : String → FieldValue
  | date : JSDate → FieldValue
  | num : Int → FieldValue
  | bool : Bool → FieldValue
deriving DecidableEq, Repr

/-- A raw frontmatter field set: a mapping from field name to untyped value. -/
abbrev Frontmatter := List (String × FieldValue)

/-- Look up a field by name in a frontmatter mapping (first binding wins). -/
def lookupField (fm : Frontmatter) (key : String) : Option FieldValue :=
  (fm.find? (fun p => p.1 == key)).map (fun p => p.2)

/-- The typed record produced by the `posts` collection schema in
`src/content/config.ts`: `title: z.string()`, `description: z.string()`,
`published: z.date()`, `og_image_path: z.ostring()`. -/
structure PostData where
  title : String
  description : String
  published : JSDate
  og_image_path : Option String
deriving DecidableEq, Repr

/-- A validated collection entry as Astro hands it to pages: the derived
`slug` (from the document's storage identity) plus the schema-typed `data`.
The opaque rendered body is owned by the rendering collaborator and omitted. -/
structure Post where
  slug : String
  data : PostData
deriving DecidableEq, Repr

/-- Models `title: z.string()`: the field must be present and be a string
(zod reports the offending key path on failure). -/
def checkTitle (fm : Frontmatter) : Except (List String) String :=
  match lookupField fm "title" with
  | some (.str s) => .ok s
  | _ => .error ["title"]

/-- Models `description: z.string()`: the field must be present and be a
string. -/
def checkDescription (fm : Frontmatter) : Except (List String) String :=
  match lookupField fm "description" with
  | some (.str s) => .ok s
  | _ => .error ["description"]

/-- Models `published: z.date()`: the field must be present and be a `Date`
value (it is not declared optional in `src/content/config.ts`). -/
def checkPublished (fm : Frontmatter) : Except (List String) JSDate :=
  match lookupField fm "published" with
  | some (.date d) => .ok d
  | _ => .error ["published"]

/-- Models `og_image_path: z.ostring()` (optional string): an absent field is
valid, a present field must be a string. -/
def checkOgImagePath (fm : Frontmatter) : Except (List String) (Option String) :=
  match lookupField fm "og_image_path" with
  | none => .ok none
  | some (.str s) => .ok (some s)
  | some _ => .error ["og_image_path"]

/-- The field names reported by a failed field check (empty for a success). -/
def errFields {β : Type} : Except (List String) β → List String
  | .error fields => fields
  | .ok _ => []

/-- Models validation of one document's frontmatter against the `z.object`
schema of the `posts` collection: all four field checks run, and on failure
the offending field names are collected in schema key order, as zod collects
issue paths. Unknown keys are ignored (zod strips them). -/
def validatePost (fm : Frontmatter) : Except (List String) PostData :=
  match checkTitle fm, checkDescription fm, checkPublished fm, checkOgImagePath fm with
  | .ok t, .ok d, .ok p, .ok og =>
      .ok { title := t, description := d, published := p, og_image_path := og }
  | t, d, p, og => .error (errFields t ++ errFields d ++ errFields p ++ errFields og)

/-- A raw content document before validation: its storage-derived slug and its
parsed frontmatter field set. -/
structure RawDoc where
  slug : String
  frontmatter : Frontmatter
deriving DecidableEq, Repr

/-- The schema failures over a whole set of documents: each offending
document's slug paired with its offending field names. -/
def collectionErrors (docs : List RawDoc) : List (String × List String) :=
  docs.filterMap fun doc =>
    match validatePost doc.frontmatter with
    | .error fields => some (doc.slug, fields)
    | .ok _ => none

/-- Models the build-time construction of the content collection: every
document is validated against the schema; if any document fails, the whole
build fails, reporting each offending document together with its offending
fields; otherwise the typed collection is produced. -/
def buildCollection (docs : List RawDoc) : Except (List (String × List String)) (List Post) :=
  match collectionErrors docs with
  | [] => .ok (docs.filterMap fun doc =>
      match validatePost doc.frontmatter with
      | .ok pd => some { slug := doc.slug, data := pd }
      | .error _ => none)
  | e :: es => .error (e :: es)

/-- Models `Array.prototype.toSorted(cmp)` for a numeric comparator: it
returns a new array holding the elements in the stable order consistent with
`cmp` (`a` may precede `b` exactly when `cmp a b ≤ 0`; ECMAScript requires a
stable, comparator-consistent sort, which for a comparator induced by a
numeric key determines the output uniquely, computed here by the stable
`List.mergeSort`). -/
def toSorted {α : Type} (arr : List α) (cmp : α → α → Int) : List α :=
  arr.mergeSort (fun a b => decide (cmp a b ≤ 0))

/-- The comparator of `sortByPublished` in `src/lib/utils.ts`:
`Number(b.data.published) - Number(a.data.published)`. -/
def publishedComparator (a b : Post) : Int :=
  b.data.published.toNumber - a.data.published.toNumber

/-- The boolean order underlying `toSorted` with `publishedComparator`. -/
def publishedLe (a b : Post) : Bool :=
  decide (publishedComparator a b ≤ 0)

/-- Models `sortByPublished` from `src/lib/utils.ts`: a new sequence, sorted
with the comparator `(a, b) => Number(b.data.published) - Number(a.data.published)`
via the non-mutating `toSorted`. (The TS function is generic over any element
type with a `data.published: Date` field; it is instantiated here at `Post`,
the one element type the pages use it with.) -/
def sortByPublished (collection : List Post) : List Post :=
  toSorted collection publishedComparator

/-- Models the `getCollection('posts', ({ data }) => data.published)` call of
`src/pages/blog.astro`: keep the entries whose `published` value is truthy
(under the schema, `data.published` is always a `Date` object, and objects
are truthy). -/
def blogPosts (coll : List Post) : List Post :=
  coll.filter (fun p => p.data.published.truthy)

/-- Left-pad the decimal rendering of a natural number with zeros to the
given width. -/
def zeroPad (width : Nat) (n : Nat) : String :=
  let s := toString n
  if s.length ≥ width then s
  else (List.replicate (width - s.length) '0').asString ++ s

/-- Convert a count of days since the Unix epoch to a proleptic Gregorian
civil date (year, month, day), the calendar ECMAScript `Date` uses. -/
def civilFromDays (day : Int) : Int × Int × Int :=
  let z := day + 719468
  let era := z / 146097
  let doe := z % 146097
  let yoe := (doe - doe / 1460 + doe / 36524 - doe / 146096) / 365
  let y := yoe + era * 400
  let doy := doe - (365 * yoe + yoe / 4 - yoe / 100)
  let mp := (5 * doy + 2) / 153
  let d := doy - (153 * mp + 2) / 5 + 1
  let m := mp + (if mp < 10 then 3 else -9)
  (if m ≤ 2 then y + 1 else y, m, d)

/-- Models `Date.prototype.toISOString`: the UTC time value rendered in the
ECMAScript date time string format `YYYY-MM-DDTHH:mm:ss.sssZ` (years outside
0000–9999 use the expanded six-digit signed form). -/
def toISOString (date : JSDate) : String :=
  let day := date.ms / 86400000
  let msOfDay := (date.ms % 86400000).toNat
  let ymd := civilFromDays day
  let y := ymd.1
  let m := ymd.2.1
  let d := ymd.2.2
  let yearStr :=
    if 0 ≤ y ∧ y ≤ 9999 then zeroPad 4 y.toNat
    else if y < 0 then "-" ++ zeroPad 6 (-y).toNat
    else "+" ++ zeroPad 6 y.toNat
  yearStr ++ "-" ++ zeroPad 2 m.toNat ++ "-" ++ zeroPad 2 d.toNat ++ "T" ++
    zeroPad 2 (msOfDay / 3600000) ++ ":" ++ zeroPad 2 (msOfDay / 60000 % 60) ++ ":" ++
    zeroPad 2 (msOfDay / 1000 % 60) ++ "." ++ zeroPad 3 (msOfDay % 1000) ++ "Z"

/-- The render-ready display record the blog index template produces per
listed post in `src/pages/blog.astro`: the link target, the machine-readable
timestamp for the `datetime` attribute, and the displayed texts. (The
locale-dependent `humanTime` rendering belongs to the ambient locale and is
not part of this record.) -/
structure DisplayRecord where
  url : String
  isoTimestamp : String
  title : String
  description : String
deriving DecidableEq, Repr

/-- The display record of one post, as composed in `src/pages/blog.astro`:
`href` is the literal path `/blog/` followed by the slug, and the `datetime`
attribute is `post.data.published.toISOString()`. -/
def displayRecord (post : Post) : DisplayRecord :=
  { url := "/blog/" ++ post.slug
  , isoTimestamp := toISOString post.data.published
  , title := post.data.title
  , description := post.data.description }

/-- The blog index listing of `src/pages/blog.astro`: the filtered collection,
ordered by `sortByPublished`, mapped to display records. -/
def blogIndexEntries (coll : List Post) : List DisplayRecord :=
  (sortByPublished (blogPosts coll)).map displayRecord

/-- A store of arrays, modelling JS array references for stating frame
properties: cell `r` holds the array the reference `r` points to. -/
structure Store (α : Type) where
  cells : List (List α)

/-- Read the array a reference points to (unallocated references read as
empty). -/
def Store.read {α : Type} (s : Store α) (r : Nat) : List α :=
  (s.cells[r]?).getD []

/-- Allocate a fresh array in the store, returning the extended store and the
new reference. -/
def Store.alloc {α : Type} (s : Store α) (v : List α) : Store α × Nat :=
  (⟨s.cells ++ [v]⟩, s.cells.length)

/-- Calling `sortByPublished` on the array referenced by `r`: per the
semantics of `toSorted`, the receiver is read, a new array holding the sorted
elements is allocated, and its reference is returned; no existing cell is
written. -/
def sortByPublishedCall (s : Store Post) (r : Nat) : Store Post × Nat :=
  s.alloc (sortByPublished (s.read r))

/-- A concrete valid post used to instantiate proved theorems. -/
def testPostA : Post :=
  { slug := "openai-streaming-elixir-phoenix-part-3"
  , data := { title := "Streaming OpenAI in Elixir Phoenix Part III"
            , description := "Using LiveView to create a streaming chat playground"
            , published := ⟨1709467200000⟩
            , og_image_path := none } }

/-- A second concrete valid post, published earlier than `testPostA`. -/
def testPostB : Post :=
  { slug := "openai-streaming-elixir-phoenix-part-2"
  , data := { title := "Streaming OpenAI in Elixir Phoenix Part II"
            , description := "Making our parser robust to HTTP buffering"
            , published := ⟨1704715200000⟩
            , og_image_path := none } }

/-- A concrete post sharing its `published` timestamp with `testPostD`. -/
def testPostC : Post :=
  { slug := "same-day-first"
  , data := { title := "Same day, first"
            , description := "first of two posts with one timestamp"
            , published := ⟨1704715200000⟩
            , og_image_path := none } }

/-- A concrete post sharing its `published` timestamp with `testPostC`. -/
def testPostD : Post :=
  { slug := "same-day-second"
  , data := { title := "Same day, second"
            , description := "second of two posts with one timestamp"
            , published := ⟨1704715200000⟩
            , og_image_path := some "/og/second.png" } }

/-- Unfolding `sortByPublished` to the underlying stable merge sort with the
boolean order induced by its comparator. -/
theorem sortByPublished_eq (l : List Post) : sortByPublished l = l.mergeSort publishedLe := rfl

/-- The order induced by the `published` comparator is transitive. -/
theorem publishedLe_trans (a b c : Post) (h₁ : publishedLe a b = true)
    (h₂ : publishedLe b c = true) : publishedLe a c = true := by
  simp only [publishedLe, publishedComparator, decide_eq_true_eq] at *
  omega

/-- The order induced by the `published` comparator is total. -/
theorem publishedLe_total (a b : Post) : (publishedLe a b || publishedLe b a) = true := by
  simp only [publishedLe, publishedComparator, Bool.or_eq_true, decide_eq_true_eq]
  omega

/-- C5: in the output of `sortByPublished`, whenever one element appears
strictly before another, its `published` value is at least the later one's —
the output is ordered by `published` descending, most recent first, so any
post published strictly later than another precedes it. -/
theorem sortByPublished_descending (l : List Post) (i j : Nat) (a b : Post)
    (hij : i < j)
    (ha : (sortByPublished l)[i]? = some a)
    (hb : (sortByPublished l)[j]? = some b) :
    b.data.published.toNumber ≤ a.data.published.toNumber := by
  have hs : (l.mergeSort publishedLe).Pairwise (fun x y => publishedLe x y = true) :=
    List.sorted_mergeSort publishedLe_trans publishedLe_total l
  rw [sortByPublished_eq] at ha hb
  obtain ⟨hi, rfl⟩ := List.getElem?_eq_some.mp ha
  obtain ⟨hj, rfl⟩ := List.getElem?_eq_some.mp hb
  have h := List.pairwise_iff_getElem.mp hs i j hi hj hij
  simp only [publishedLe, publishedComparator, decide_eq_true_eq] at h
  omega

/-- Concrete evaluation: a two-element list already in descending order is
returned unchanged by `sortByPublished`. -/
theorem sortByPublished_pair_eval :
    sortByPublished [testPostA, testPostB] = [testPostA, testPostB] := by
  rw [sortByPublished_eq]
  exact List.mergeSort_of_sorted (by decide)

/-- Witness for C5 at a concrete input. -/
theorem sortByPublished_descending_witness :
    testPostB.data.published.toNumber ≤ testPostA.data.published.toNumber :=
  sortByPublished_descending [testPostA, testPostB] 0 1 testPostA testPostB
    (by decide) (by rw [sortByPublished_pair_eval]; rfl) (by rw [sortByPublished_pair_eval]; rfl)

/-- C7: `sortByPublished` is idempotent — sorting its own output changes
nothing. -/
theorem sortByPublished_idempotent (l : List Post) :
    sortByPublished (sortByPublished l) = sortByPublished l := by
  simp only [sortByPublished_eq]
  exact List.mergeSort_of_sorted (List.sorted_mergeSort publishedLe_trans publishedLe_total l)

/-- C9: `sortByPublished` is stable — two posts with equal `published`
timestamps keep their input order in the output (stated as sublist preservation) (and, the function being
pure, repeated calls on the same input trivially produce the same order). -/
theorem sortByPublished_stable (l : List Post) (a b : Post)
    (hpub : a.data.published = b.data.published)
    (hab : List.Sublist [a, b] l) :
    List.Sublist [a, b] (sortByPublished l) := by
  rw [sortByPublished_eq]
  refine List.pair_sublist_mergeSort publishedLe_trans publishedLe_total ?_ hab
  simp only [publishedLe, publishedComparator, hpub, decide_eq_true_eq]
  omega

/-- Witness for C9 at a concrete input: two posts sharing a timestamp. -/
theorem sortByPublished_stable_witness :
    List.Sublist [testPostC, testPostD] (sortByPublished [testPostC, testPostD]) :=
  sortByPublished_stable [testPostC, testPostD] testPostC testPostD rfl (List.Sublist.refl _)

/-- C10: the output of `sortByPublished` is a permutation of its input — same
elements, same multiplicities, same length; nothing is dropped, duplicated or
synthesized. -/
theorem sortByPublished_perm (l : List Post) :
    (sortByPublished l).Perm l ∧ (sortByPublished l).length = l.length ∧
      ∀ p : Post, (sortByPublished l).count p = l.count p := by
  have h : (sortByPublished l).Perm l := by
    rw [sortByPublished_eq]; exact List.mergeSort_perm l _
  exact ⟨h, h.length_eq, fun p => h.count_eq p⟩

/-- C6: calling `sortByPublished` does not mutate its input array — in the
reference-store model, every previously allocated cell (in particular the
receiver's) reads the same after the call, and the returned reference is a
fresh one, distinct from every previously allocated reference, holding the
sorted copy. -/
theorem sortByPublished_no_mutation (s : Store Post) (r q : Nat) (hq : q < s.cells.length) :
    (sortByPublishedCall s r).1.read q = s.read q ∧
    (sortByPublishedCall s r).2 ≠ q ∧
    (sortByPublishedCall s r).1.read (sortByPublishedCall s r).2 =
      sortByPublished (s.read r) := by
  refine ⟨?_, ?_, ?_⟩
  · simp only [sortByPublishedCall, Store.alloc, Store.read]
    rw [List.getElem?_append_left hq]
  · simp only [sortByPublishedCall, Store.alloc]
    exact (Nat.ne_of_lt hq).symm
  · simp only [sortByPublishedCall, Store.alloc, Store.read]
    rw [List.getElem?_concat_length]
    rfl

/-- Witness for C6 at a concrete one-cell store. -/
theorem sortByPublished_no_mutation_witness :
    (sortByPublishedCall (Store.mk [[testPostA, testPostB]]) 0).1.read 0 =
      (Store.mk [[testPostA, testPostB]]).read 0 ∧
    (sortByPublishedCall (Store.mk [[testPostA, testPostB]]) 0).2 ≠ 0 ∧
    (sortByPublishedCall (Store.mk [[testPostA, testPostB]]) 0).1.read
        (sortByPublishedCall (Store.mk [[testPostA, testPostB]]) 0).2 =
      sortByPublished ((Store.mk [[testPostA, testPostB]]).read 0) :=
  sortByPublished_no_mutation (Store.mk [[testPostA, testPostB]]) 0 0 (by decide)

/-- A schema failure of one document inside a document set makes the whole
build fail, reporting that document's slug with its offending fields. -/
theorem buildCollection_error_of_mem (docs : List RawDoc) (doc : RawDoc) (fields : List String)
    (hdoc : doc ∈ docs) (hval : validatePost doc.frontmatter = .error fields) :
    ∃ errs, buildCollection docs = .error errs ∧ (doc.slug, fields) ∈ errs := by
  have hmem : (doc.slug, fields) ∈ collectionErrors docs := by
    unfold collectionErrors
    exact List.mem_filterMap.mpr ⟨doc, hdoc, by rw [hval]⟩
  refine ⟨collectionErrors docs, ?_, hmem⟩
  unfold buildCollection
  cases h : collectionErrors docs with
  | nil => rw [h] at hmem; exact absurd hmem (List.not_mem_nil _)
  | cons e es => rfl

/-- C1 (amended): a document whose frontmatter lacks `published`, however
valid otherwise, is REJECTED by the schema (`published: z.date()` is a
required field), and the whole build fails naming that document and the
`published` field — so the document never reaches any listing. -/
theorem missing_published_fails_validation_and_build
    (fm : Frontmatter) (t d : String) (docs : List RawDoc) (doc : RawDoc)
    (ht : lookupField fm "title" = some (.str t))
    (hd : lookupField fm "description" = some (.str d))
    (hp : lookupField fm "published" = none)
    (hog : lookupField fm "og_image_path" = none ∨
           ∃ s, lookupField fm "og_image_path" = some (.str s))
    (hdoc : doc ∈ docs) (hfm : doc.frontmatter = fm) :
    validatePost fm = .error ["published"] ∧
    ∃ errs, buildCollection docs = .error errs ∧ (doc.slug, ["published"]) ∈ errs := by
  have h1 : checkTitle fm = .ok t := by unfold checkTitle; rw [ht]
  have h2 : checkDescription fm = .ok d := by unfold checkDescription; rw [hd]
  have h3 : checkPublished fm = .error ["published"] := by unfold checkPublished; rw [hp]
  have h4 : ∃ og, checkOgImagePath fm = .ok og := by
    rcases hog with h | ⟨s, h⟩
    · exact ⟨none, by unfold checkOgImagePath; rw [h]⟩
    · exact ⟨some s, by unfold checkOgImagePath; rw [h]⟩
  obtain ⟨og, h4⟩ := h4
  have hval : validatePost fm = .error ["published"] := by
    unfold validatePost
    rw [h1, h2, h3, h4]
    rfl
  exact ⟨hval, buildCollection_error_of_mem docs doc ["published"] hdoc (by rw [hfm, hval])⟩

/-- A concrete otherwise-valid frontmatter lacking `published`. -/
def draftFrontmatter : Frontmatter :=
  [("title", FieldValue.str "A draft"), ("description", FieldValue.str "not yet published")]

/-- Witness for C1 (amended) at a concrete draft document. -/
theorem missing_published_fails_validation_and_build_witness :
    validatePost draftFrontmatter = .error ["published"] ∧
    ∃ errs, buildCollection [⟨"a-draft", draftFrontmatter⟩] = .error errs ∧
      ("a-draft", ["published"]) ∈ errs :=
  missing_published_fails_validation_and_build draftFrontmatter "A draft" "not yet published"
    [⟨"a-draft", draftFrontmatter⟩] ⟨"a-draft", draftFrontmatter⟩
    rfl rfl rfl (Or.inl rfl) (List.Mem.head _) rfl

/-- C1 counterexample: an otherwise-valid document lacking `published` is not
accepted by the schema — validation reports the missing `published` field. -/
theorem missing_published_accepted_cex :
    validatePost [("title", FieldValue.str "Draft"), ("description", FieldValue.str "wip")] =
      .error ["published"] := rfl

/-- C2 counterexample: a document with text `title` and `description` is
rejected when the (claimed-optional) `published` field is absent, so the
schema does not accept it "regardless of which optional fields are absent". -/
theorem accepts_without_published_cex :
    validatePost [("title", FieldValue.str "T"), ("description", FieldValue.str "D"),
        ("og_image_path", FieldValue.str "/og/x.png")] = .error ["published"] := rfl

/-- C2 (amended): a document with text `title` and `description` AND a date
`published` is accepted, regardless of whether `og_image_path` (the one
genuinely optional field) is absent or present as text. -/
theorem accepts_required_regardless_og (t d : String) (p : JSDate) :
    validatePost [("title", FieldValue.str t), ("description", FieldValue.str d),
        ("published", FieldValue.date p)] =
      .ok { title := t, description := d, published := p, og_image_path := none } ∧
    ∀ og : String,
      validatePost [("title", FieldValue.str t), ("description", FieldValue.str d),
          ("published", FieldValue.date p), ("og_image_path", FieldValue.str og)] =
        .ok { title := t, description := d, published := p, og_image_path := some og } :=
  ⟨rfl, fun _ => rfl⟩

/-- C3 counterexample: a document whose `title` and `description` are both
the empty string passes validation — the schema does not require
non-emptiness. -/
theorem empty_title_rejected_cex :
    validatePost [("title", FieldValue.str ""), ("description", FieldValue.str ""),
        ("published", FieldValue.date ⟨1704715200000⟩)] =
      .ok { title := "", description := "", published := ⟨1704715200000⟩,
            og_image_path := none } := rfl

/-- C3 (amended): the schema requires `title` and `description` to be text,
but imposes no non-emptiness constraint — empty strings are accepted. -/
theorem empty_strings_accepted (p : JSDate) (og : String) :
    validatePost [("title", FieldValue.str ""), ("description", FieldValue.str ""),
        ("published", FieldValue.date p), ("og_image_path", FieldValue.str og)] =
      .ok { title := "", description := "", published := p, og_image_path := some og } := rfl

/-- The `title` check succeeds exactly when the field is present as text. -/
theorem checkTitle_ok_iff (fm : Frontmatter) :
    (∃ t, checkTitle fm = .ok t) ↔ (∃ t, lookupField fm "title" = some (.str t)) := by
  unfold checkTitle
  cases h : lookupField fm "title" with
  | none => simp
  | some v => cases v <;> simp

/-- The `description` check succeeds exactly when the field is present as
text. -/
theorem checkDescription_ok_iff (fm : Frontmatter) :
    (∃ d, checkDescription fm = .ok d) ↔
      (∃ d, lookupField fm "description" = some (.str d)) := by
  unfold checkDescription
  cases h : lookupField fm "description" with
  | none => simp
  | some v => cases v <;> simp

/-- The `published` check succeeds exactly when the field is present as a
date. -/
theorem checkPublished_ok_iff (fm : Frontmatter) :
    (∃ p, checkPublished fm = .ok p) ↔
      (∃ p, lookupField fm "published" = some (.date p)) := by
  unfold checkPublished
  cases h : lookupField fm "published" with
  | none => simp
  | some v => cases v <;> simp

/-- The `og_image_path` check succeeds exactly when the field is absent or
present as text. -/
theorem checkOgImagePath_ok_iff (fm : Frontmatter) :
    (∃ og, checkOgImagePath fm = .ok og) ↔
      (lookupField fm "og_image_path" = none ∨
       ∃ s, lookupField fm "og_image_path" = some (.str s)) := by
  unfold checkOgImagePath
  cases h : lookupField fm "og_image_path" with
  | none => simp
  | some v => cases v <;> simp

/-- Validation succeeds exactly when all four field checks succeed. -/
theorem validatePost_ok_iff (fm : Frontmatter) :
    (∃ pd, validatePost fm = .ok pd) ↔
      ((∃ t, checkTitle fm = .ok t) ∧ (∃ d, checkDescription fm = .ok d) ∧
       (∃ p, checkPublished fm = .ok p) ∧ (∃ og, checkOgImagePath fm = .ok og)) := by
  unfold validatePost
  cases h1 : checkTitle fm <;> cases h2 : checkDescription fm <;>
    cases h3 : checkPublished fm <;> cases h4 : checkOgImagePath fm <;> simp

/-- A bad `title` field makes validation fail with `title` among the
reported fields. -/
theorem validatePost_error_of_title (fm : Frontmatter)
    (h : checkTitle fm = .error ["title"]) :
    ∃ fields, validatePost fm = .error fields ∧ "title" ∈ fields := by
  unfold validatePost
  rw [h]
  cases h2 : checkDescription fm <;> cases h3 : checkPublished fm <;>
    cases h4 : checkOgImagePath fm <;>
      exact ⟨_, rfl, by simp [errFields]⟩

/-- A bad `description` field makes validation fail with `description` among
the reported fields. -/
theorem validatePost_error_of_description (fm : Frontmatter)
    (h : checkDescription fm = .error ["description"]) :
    ∃ fields, validatePost fm = .error fields ∧ "description" ∈ fields := by
  unfold validatePost
  rw [h]
  cases h1 : checkTitle fm <;> cases h3 : checkPublished fm <;>
    cases h4 : checkOgImagePath fm <;>
      exact ⟨_, rfl, by simp [errFields]⟩

/-- A `title` that is not present as text fails its check. -/
theorem checkTitle_error (fm : Frontmatter)
    (h : ∀ t, lookupField fm "title" ≠ some (.str t)) :
    checkTitle fm = .error ["title"] := by
  unfold checkTitle
  cases hl : lookupField fm "title" with
  | none => rfl
  | some v =>
    cases v with
    | str s => exact absurd hl (h s)
    | date d => rfl
    | num n => rfl
    | bool b => rfl

/-- A `description` that is not present as text fails its check. -/
theorem checkDescription_error (fm : Frontmatter)
    (h : ∀ d, lookupField fm "description" ≠ some (.str d)) :
    checkDescription fm = .error ["description"] := by
  unfold checkDescription
  cases hl : lookupField fm "description" with
  | none => rfl
  | some v =>
    cases v with
    | str s => exact absurd hl (h s)
    | date d => rfl
    | num n => rfl
    | bool b => rfl

/-- C4 (amended): a document missing `title` or `description` (or holding a
non-text value there) is rejected, and the failed build names the offending
document and field; but acceptance holds if and only if `title` and
`description` are present as text AND `published` is present as a date AND
`og_image_path` is absent or text — `published` is required too, not only
the two text fields. -/
theorem validate_acceptance_characterization :
    (∀ fm : Frontmatter, (∃ pd, validatePost fm = .ok pd) ↔
      ((∃ t, lookupField fm "title" = some (.str t)) ∧
       (∃ d, lookupField fm "description" = some (.str d)) ∧
       (∃ p, lookupField fm "published" = some (.date p)) ∧
       (lookupField fm "og_image_path" = none ∨
        ∃ s, lookupField fm "og_image_path" = some (.str s)))) ∧
    (∀ (docs : List RawDoc) (doc : RawDoc), doc ∈ docs →
      (∀ t, lookupField doc.frontmatter "title" ≠ some (.str t)) →
      ∃ errs fields, buildCollection docs = .error errs ∧
        (doc.slug, fields) ∈ errs ∧ "title" ∈ fields) ∧
    (∀ (docs : List RawDoc) (doc : RawDoc), doc ∈ docs →
      (∀ d, lookupField doc.frontmatter "description" ≠ some (.str d)) →
      ∃ errs fields, buildCollection docs = .error errs ∧
        (doc.slug, fields) ∈ errs ∧ "description" ∈ fields) := by
  refine ⟨?_, ?_, ?_⟩
  · intro fm
    rw [validatePost_ok_iff, checkTitle_ok_iff, checkDescription_ok_iff,
      checkPublished_ok_iff, checkOgImagePath_ok_iff]
  · intro docs doc hdoc hbad
    obtain ⟨fields, hval, hmem⟩ :=
      validatePost_error_of_title doc.frontmatter (checkTitle_error doc.frontmatter hbad)
    obtain ⟨errs, hbuild, hin⟩ := buildCollection_error_of_mem docs doc fields hdoc hval
    exact ⟨errs, fields, hbuild, hin, hmem⟩
  · intro docs doc hdoc hbad
    obtain ⟨fields, hval, hmem⟩ :=
      validatePost_error_of_description doc.frontmatter
        (checkDescription_error doc.frontmatter hbad)
    obtain ⟨errs, hbuild, hin⟩ := buildCollection_error_of_mem docs doc fields hdoc hval
    exact ⟨errs, fields, hbuild, hin, hmem⟩

/-- Witness for C4 (amended): a fully well-typed document is accepted, and a
document with no `title` fails the build with its slug and the `title` field
reported. -/
theorem validate_acceptance_characterization_witness :
    (∃ pd, validatePost [("title", FieldValue.str "T"), ("description", FieldValue.str "D"),
        ("published", FieldValue.date ⟨0⟩)] = .ok pd) ∧
    (∃ errs fields,
      buildCollection [⟨"no-title", [("description", FieldValue.str "D"),
          ("published", FieldValue.date ⟨0⟩)]⟩] = .error errs ∧
      ("no-title", fields) ∈ errs ∧ "title" ∈ fields) := by
  constructor
  · exact (validate_acceptance_characterization.1 _).mpr
      ⟨⟨"T", rfl⟩, ⟨"D", rfl⟩, ⟨⟨0⟩, rfl⟩, Or.inl rfl⟩
  · exact validate_acceptance_characterization.2.1 _ ⟨"no-title", _⟩ (List.Mem.head _)
      (fun t h => Option.noConfusion h)

/-- C4 counterexample: a document whose `title` and `description` are present
and well-typed is nonetheless rejected (it lacks `published`), so acceptance
does not hold "if and only if" the claim's required fields `title` and
`description` are present and well-typed. -/
theorem required_fields_iff_cex :
    lookupField [("title", FieldValue.str "Hello"), ("description", FieldValue.str "World")]
        "title" = some (FieldValue.str "Hello") ∧
    lookupField [("title", FieldValue.str "Hello"), ("description", FieldValue.str "World")]
        "description" = some (FieldValue.str "World") ∧
    validatePost [("title", FieldValue.str "Hello"), ("description", FieldValue.str "World")] =
      .error ["published"] :=
  ⟨rfl, rfl, rfl⟩

/-- C8: every entry of the blog index listing carries the link target built
from the fixed path `/blog/` followed by the post's slug, and the
machine-readable timestamp `toISOString` of the post's `published` date. -/
theorem blogIndex_url_iso (coll : List Post) (i : Nat) (p : Post)
    (hp : (sortByPublished (blogPosts coll))[i]? = some p) :
    ∃ e : DisplayRecord, (blogIndexEntries coll)[i]? = some e ∧
      e.url = "/blog/" ++ p.slug ∧ e.isoTimestamp = toISOString p.data.published := by
  refine ⟨displayRecord p, ?_, rfl, rfl⟩
  unfold blogIndexEntries
  rw [List.getElem?_map, hp]
  rfl

/-- Concrete evaluation: the filtered singleton collection sorts to itself. -/
theorem sortByPublished_blogPosts_singleton :
    sortByPublished (blogPosts [testPostB]) = [testPostB] := by
  rw [sortByPublished_eq]
  exact List.mergeSort_of_sorted (by decide)

/-- Witness for C8 at a concrete singleton collection. -/
theorem blogIndex_url_iso_witness :
    ∃ e : DisplayRecord, (blogIndexEntries [testPostB])[0]? = some e ∧
      e.url = "/blog/" ++ testPostB.slug ∧
      e.isoTimestamp = toISOString testPostB.data.published :=
  blogIndex_url_iso [testPostB] 0 testPostB
    (by rw [sortByPublished_blogPosts_singleton]; rfl)

/-- Concrete evaluation of the ISO rendering: noon UTC, 2024-01-08. -/
theorem toISOString_eval :
    toISOString ⟨1704715200000⟩ = "2024-01-08T12:00:00.000Z" := by decide
